import Mathlib

set_option maxRecDepth 8000
set_option maxHeartbeats 1000000

/-!
Verification of the bit-scope technical-analysis pipeline
(`app/tools/analyze.py` and `app/schemas/candle.py`).

Shallow embedding conventions:
* pandas/NumPy float64 values are modelled as exact rationals (`ℚ`);
  a NaN entry of a pandas Series is modelled as `none : Option ℚ`.
* IEEE-754 division semantics used by pandas (these operations do not
  raise): `x / 0 = +inf` for `x > 0`, `0 / 0 = NaN`.  Wherever the source
  divides two Series we case on the denominator and reproduce the exact
  observable consequence (see `rsiFromAvgs` for the worked-out case).
* Plain-Python float division (`/` on scalars) raises `ZeroDivisionError`
  on a zero denominator; functions whose body can raise this way are
  modelled with an `Option` result, `none` standing for the exception.
* `pandas.DataFrame` columns are `List ℚ`; `df.iloc[-1]` on a list known
  to be nonempty is `lastQ` / `lastO` below (on an empty list the source
  would raise and fall into the surrounding `except` handler; every place
  where that matters is commented).
* Python `round` (banker's rounding, half to even) is `pyRound` /
  `pyRoundTo`, Python `int()` (truncation toward zero) is `pyTrunc`.
-/

/-- Equality on `ℚ` decided through the numerator/denominator pair.
The instance derived for the `Rat` structure transports the rest of the
decision through `Eq.ndrec` along the numerator-equality proof, which
reduction can only pass by normalising that proof — work linear in the
magnitude of the numerals.  This equivalent instance decides a plain
conjunction instead, so reduction needs only the two integer
comparisons. -/
instance (priority := 10000) ratFastDecEq : DecidableEq ℚ := fun a b =>
  decidable_of_iff (a.num = b.num ∧ a.den = b.den)
    ⟨fun h => Rat.ext h.1 h.2, fun h => ⟨congrArg Rat.num h, congrArg Rat.den h⟩⟩

/-- `Option` equality decided without the `Eq.ndrec` transport of the
auto-derived instance, for the same reason as `ratFastDecEq`. -/
instance (priority := 10000) optionFastDecEq {α : Type} [DecidableEq α] :
    DecidableEq (Option α) := fun a b =>
  match a, b with
  | none, none => isTrue rfl
  | some x, some y => decidable_of_iff (x = y) ⟨congrArg some, Option.some.inj⟩
  | none, some _ => isFalse fun h => Option.noConfusion h
  | some _, none => isFalse fun h => Option.noConfusion h

/-- Python `round(x)`: round half to even, as applied to an exact rational. -/
def pyRound (x : ℚ) : ℤ :=
  if x - ⌊x⌋ < 1/2 then ⌊x⌋
  else if 1/2 < x - ⌊x⌋ then ⌊x⌋ + 1
  else if 2 ∣ ⌊x⌋ then ⌊x⌋ else ⌊x⌋ + 1

/-- Python `round(x, d)`: round to `d` decimal places, half to even. -/
def pyRoundTo (d : ℕ) (x : ℚ) : ℚ :=
  (pyRound (x * 10 ^ d) : ℚ) / 10 ^ d

/-- Python `int(x)`: truncation toward zero. -/
def pyTrunc (x : ℚ) : ℤ :=
  if 0 ≤ x then ⌊x⌋ else ⌈x⌉

/-- `xs.iloc[-1]` with an explicit default for the empty list. -/
def lastQ (d : ℚ) : List ℚ → ℚ
  | [] => d
  | [a] => a
  | _ :: b :: t => lastQ d (b :: t)

/-- The last entry of a pandas Series modelled as `List (Option ℚ)`;
`none` both for an empty series (where `iloc[-1]` would raise) and for a
NaN entry. -/
def lastO : List (Option ℚ) → Option ℚ
  | [] => none
  | [a] => a
  | _ :: b :: t => lastO (b :: t)

/-- `series.rolling(window=w, min_periods=w).mean()`:
defined from the `w`-th observation on, arithmetic mean of the trailing
`w` entries. -/
def rollingMean (w : ℕ) (xs : List ℚ) : List (Option ℚ) :=
  (List.range xs.length).map fun i =>
    if w ≤ i + 1 ∧ 1 ≤ w then
      some ((((xs.take (i + 1)).drop (i + 1 - w)).sum) / w)
    else none

/-- Rolling mean over a Series that may contain NaN entries
(`min_periods = w` counts non-NaN entries, so a NaN inside the window
makes the result NaN). -/
def rollingMeanOpt (w : ℕ) (xs : List (Option ℚ)) : List (Option ℚ) :=
  (List.range xs.length).map fun i =>
    if w ≤ i + 1 ∧ 1 ≤ w then
      let s := (xs.take (i + 1)).drop (i + 1 - w)
      if s.all Option.isSome then
        some ((s.filterMap id).sum / w)
      else none
    else none

/-- `series.rolling(window=w, min_periods=w).min()`. -/
def rollingMin (w : ℕ) (xs : List ℚ) : List (Option ℚ) :=
  (List.range xs.length).map fun i =>
    if w ≤ i + 1 ∧ 1 ≤ w then
      match (xs.take (i + 1)).drop (i + 1 - w) with
      | [] => none
      | h :: t => some (t.foldl min h)
    else none

/-- `series.rolling(window=w, min_periods=w).max()`. -/
def rollingMax (w : ℕ) (xs : List ℚ) : List (Option ℚ) :=
  (List.range xs.length).map fun i =>
    if w ≤ i + 1 ∧ 1 ≤ w then
      match (xs.take (i + 1)).drop (i + 1 - w) with
      | [] => none
      | h :: t => some (t.foldl max h)
    else none

/-- `series.rolling(window=w, min_periods=w).std()`: pandas sample
standard deviation uses `ddof = 1`; this is its square (the sample
variance), kept rational.  The square root itself is irrational in
general and is abstracted as an explicit function argument where it is
consumed (see `calculate_volatility`). -/
def rollingVar (w : ℕ) (xs : List ℚ) : List (Option ℚ) :=
  (List.range xs.length).map fun i =>
    if w ≤ i + 1 ∧ 2 ≤ w then
      let s := (xs.take (i + 1)).drop (i + 1 - w)
      let m := s.sum / w
      some ((s.map fun x => (x - m) ^ 2).sum / ((w : ℚ) - 1))
    else none

/-- The decay factor `1 - α` of `ewm(span=s)`, where `α = 2/(s+1)`. -/
def ewmWeight (span : ℕ) : ℚ := ((span : ℚ) - 1) / ((span : ℚ) + 1)

/-- `series.ewm(span=span, min_periods=minp).mean()` over a fully
defined Series: with `adjust=True` (the pandas default),
`y_i = (Σ_{j≤i} w^(i-j)·x_j) / (Σ_{k≤i} w^k)` with `w = 1 - 2/(span+1)`,
defined once `minp` observations have accumulated. -/
def ewmMean (span minp : ℕ) (xs : List ℚ) : List (Option ℚ) :=
  let w := ewmWeight span
  (List.range xs.length).map fun i =>
    if minp ≤ i + 1 then
      some ((((List.range (i + 1)).map fun j => w ^ (i - j) * xs.getD j 0).sum) /
            (((List.range (i + 1)).map fun j => w ^ j).sum))
    else none

/-- `ewm` over a Series whose NaN entries form a prefix (the only shape
arising in the source: the MACD line is NaN exactly until the slow EMA
starts).  pandas (`ignore_na=False`, `min_periods` counting non-NaN
entries) then behaves as the plain `ewm` of the defined suffix, shifted
past the prefix. -/
def ewmOpt (span minp : ℕ) (xs : List (Option ℚ)) : List (Option ℚ) :=
  let s := (xs.takeWhile Option.isNone).length
  List.replicate s none ++ ewmMean span minp ((xs.drop s).filterMap id)

/-- Elementwise difference of two Series (NaN-propagating). -/
def omSub : Option ℚ → Option ℚ → Option ℚ
  | some x, some y => some (x - y)
  | _, _ => none

/-- `series.cumsum()`. -/
def cumsum (xs : List ℚ) : List ℚ :=
  (List.range xs.length).map fun i => (xs.take (i + 1)).sum

/-- `calculate_percentile` (analyze.py:853-858): share of the non-NaN
entries that are `≤ value`, as a 0-100 integer (`int()` truncates);
50 when the series is all-NaN/empty or the value is NaN. -/
def calculate_percentile (series : List (Option ℚ)) (value : Option ℚ) : ℤ :=
  match value with
  | none => 50
  | some v =>
    let clean := series.filterMap id
    if clean.length = 0 then 50
    else pyTrunc (((clean.countP fun x => decide (x ≤ v)) : ℚ) / clean.length * 100)

/-- One OHLCV observation (`app/schemas/candle.py`).  Only the fields the
analytics read are modelled; `ts` is the result of
`pd.to_datetime(candle_date_time_utc, errors="coerce")`, with `none` for
a missing/unparseable timestamp (`NaT`). -/
structure Candle where
  ts : Option ℕ
  opening_price : ℚ
  high_price : ℚ
  low_price : ℚ
  trade_price : ℚ
  candle_acc_trade_volume : ℚ
  change_rate : ℚ
deriving DecidableEq

instance : Inhabited Candle := ⟨⟨none, 0, 0, 0, 0, 0, 0⟩⟩

/-- `AnalysisConfig` (analyze.py:15-51) with the source's defaults. -/
structure AnalysisConfig where
  daily_count : ℕ := 200
  minute_count : ℕ := 48
  minute_interval : ℕ := 30
  weekly_count : ℕ := 8
  ma_short : ℕ := 20
  ma_medium : ℕ := 50
  ma_long : ℕ := 200
  rsi_period : ℕ := 14
  rsi_overbought : ℚ := 70
  rsi_oversold : ℚ := 30
  macd_fast : ℕ := 12
  macd_slow : ℕ := 26
  macd_signal : ℕ := 9
  stoch_k_period : ℕ := 14
  stoch_d_period : ℕ := 3
  stoch_overbought : ℚ := 80
  stoch_oversold : ℚ := 20
  bb_period : ℕ := 20
  bb_std : ℚ := 2
  atr_period : ℕ := 14
  volume_ema_period : ℕ := 20
  volume_trend_period : ℕ := 5

def defaultConfig : AnalysisConfig := {}

/-! ## Time-Series Table construction (analyze.py:62-104)

`safe_dataclass_to_dataframe` builds the DataFrame and sorts it by
`candle_date_time_utc` ascending (`pd.to_datetime(..., errors="coerce")`
has already mapped unparseable timestamps to `NaT`, modelled `none`;
`sort_values` puts `NaT` last, `na_position="last"` being the default).
The sort is modelled as an insertion sort by the timestamp key.  numpy's
introsort (the `sort_values` default) may order tied keys differently on
large inputs, so no theorem below relies on the model's tie order:
the sortedness conclusion holds under ANY sort by the key, whatever the
tie order; permutation-invariance is claimed only for pairwise-distinct
keys, where every sort by the key agrees; and the duplicate-key
counterexample uses a two-element input, on which numpy's sort provably
keeps the input order. -/

/-- The `sort_values('candle_date_time_utc', ascending=True)` key order:
real timestamps ascending, `NaT` (`none`) after every real timestamp. -/
def tsKeyLe : Option ℕ → Option ℕ → Prop
  | some x, some y => x ≤ y
  | some _, none => True
  | none, some _ => False
  | none, none => True

instance : DecidableRel tsKeyLe := fun a b =>
  match a, b with
  | some x, some y => (inferInstance : Decidable (x ≤ y))
  | some _, none => isTrue trivial
  | none, some _ => isFalse fun h => h
  | none, none => isTrue trivial

def tsLe (a b : Candle) : Prop := tsKeyLe a.ts b.ts

instance : DecidableRel tsLe := fun a b =>
  (inferInstance : Decidable (tsKeyLe a.ts b.ts))

instance : IsTotal Candle tsLe :=
  ⟨fun a b => by
    unfold tsLe
    rcases a.ts with _ | x <;> rcases b.ts with _ | y <;> simp [tsKeyLe] <;> omega⟩

instance : IsTrans Candle tsLe :=
  ⟨fun a b c => by
    show tsKeyLe a.ts b.ts → tsKeyLe b.ts c.ts → tsKeyLe a.ts c.ts
    rcases a.ts with _ | x <;> rcases b.ts with _ | y <;> rcases c.ts with _ | z <;>
      simp [tsKeyLe] <;> omega⟩

/-- `safe_dataclass_to_dataframe` (analyze.py:62-104): build the table
and sort it ascending by UTC timestamp.  Total (the source's fallback
`except` branches re-try the same conversion and at worst return an
empty frame; no input reaches them in this model). -/
def safe_dataclass_to_dataframe (rows : List Candle) : List Candle :=
  List.insertionSort tsLe rows

/-! ## Trend Analyzer (analyze.py:245-341)

Each horizon analyzer returns `some (trend, strength)`; `none` models
the `ZeroDivisionError` raised by plain-float division when the window's
first price is `0.0` (caught by `calculate_trend_analysis`, which then
reports its global neutral default). -/

/-- The up-day counter of `analyze_medium_term_trend` (analyze.py:276):
rows whose `change_rate` field is positive (`row.get('change_rate', 0)`;
the daily table always carries the column). -/
def upDaysMedium (rows : List Candle) : ℕ :=
  rows.countP fun r => decide (0 < r.change_rate)

/-- `analyze_medium_term_trend` (analyze.py:271-294). -/
def analyze_medium_term_trend (rows : List Candle) : Option (String × ℚ) :=
  if rows.length < 2 then some ("neutral", 50)
  else
    let upDays := upDaysMedium rows
    let downDays := rows.length - upDays
    let s := (rows.headD default).trade_price
    let e := lastQ 0 (rows.map Candle.trade_price)
    if s = 0 then none
    else
      let pc := (e - s) / s * 100
      if 4 < pc ∨ (4 ≤ upDays ∧ 0 < pc) then
        some ("bullish", min 100 (|pc| * 5 + upDays * 5))
      else if pc < -4 ∨ (4 ≤ downDays ∧ pc < 0) then
        some ("bearish", min 100 (|pc| * 5 + downDays * 5))
      else
        some ("neutral", 50 - |pc * 3|)

structure SupportResistance where
  resistance : List ℤ
  support : List ℤ
deriving DecidableEq

/-- `calculate_support_resistance` (analyze.py:410-436).  `list.sort()`
on rationals is order-unique (equal keys are equal values), so any
sorting algorithm models it; the synthetic pads `1.02/1.04/0.98/0.96 ×
current` are written as exact rationals. -/
def calculate_support_resistance (df : List Candle) (current : ℚ) : SupportResistance :=
  if df.isEmpty then
    { resistance := [pyRound (current * (102/100)), pyRound (current * (104/100))]
      support := [pyRound (current * (98/100)), pyRound (current * (96/100))] }
  else
    let highs := df.map Candle.high_price
    let lows := df.map Candle.low_price
    let resistanceLevels :=
      List.insertionSort (fun a b => a ≤ b) (highs.filter fun h => decide (current < h))
    let supportLevels :=
      List.insertionSort (fun a b => b ≤ a) (lows.filter fun l => decide (l < current))
    let resistancePadded :=
      if resistanceLevels.length < 2 then
        resistanceLevels ++ [current * (102/100), current * (104/100)]
      else resistanceLevels
    let supportPadded :=
      if supportLevels.length < 2 then
        supportLevels ++ [current * (98/100), current * (96/100)]
      else supportLevels
    { resistance := (resistancePadded.take 2).map pyRound
      support := (supportPadded.take 2).map pyRound }

/-! ## Moving averages and crossover scan (analyze.py:489-584) -/

/-- One entry of the `ma_crossovers` list. -/
structure Crossover where
  ctype : String
  fast_ma : String
  slow_ma : String
  days_ago : ℕ
deriving DecidableEq

/-- `analyze_ma_crossovers` (analyze.py:545-584), as a function of the
short and medium rolling-mean columns the caller appended to the frame
(both have the frame's length).  The loop is
`for i in range(lookback - 1, 0, -1)` with `lookback = min(30,
len(df))`, reading `df.iloc[i-1]` and `df.iloc[i]` — absolute positions
from the START of the frame — and skipping any pair with a NaN average;
`days_ago = len(df) - 1 - i`. -/
def analyze_ma_crossovers (cfg : AnalysisConfig) (maS maM : List (Option ℚ)) :
    List Crossover :=
  let n := maS.length
  let lookback := min 30 n
  if lookback < 2 then []
  else
    (List.range (lookback - 1)).filterMap fun k =>
      let i := lookback - 1 - k
      match maS.getD (i - 1) none, maM.getD (i - 1) none,
            maS.getD i none, maM.getD i none with
      | some prevShort, some prevMedium, some curShort, some curMedium =>
        if prevShort ≤ prevMedium ∧ curMedium < curShort then
          some ⟨"golden_cross", toString cfg.ma_short ++ "d",
                toString cfg.ma_medium ++ "d", n - 1 - i⟩
        else if prevMedium ≤ prevShort ∧ curShort < curMedium then
          some ⟨"death_cross", toString cfg.ma_short ++ "d",
                toString cfg.ma_medium ++ "d", n - 1 - i⟩
        else none
      | _, _, _, _ => none

/-- One `ma_…d` entry of the moving-averages result. -/
structure MAEntry where
  value : Option ℤ
  position : String
  signal : String
deriving DecidableEq

/-- The per-average entry built at analyze.py:518-533: `int()`-truncated
value (None on NaN), and position/signal from `current_price > ma`
(False — hence "below"/"bearish" — when the average is NaN). -/
def maEntry (current : ℚ) (m : Option ℚ) : MAEntry :=
  { value := Option.map pyTrunc m
    position := match m with
      | some v => if v < current then "above" else "below"
      | none => "below"
    signal := match m with
      | some v => if v < current then "bullish" else "bearish"
      | none => "bearish" }

structure MovingAveragesResult where
  ma_long_d : MAEntry
  ma_medium_d : MAEntry
  ma_short_d : MAEntry
  ma_crossovers : List Crossover
deriving DecidableEq

/-- The dict returned both on insufficient data (analyze.py:495-500) and
from the `except` handler (analyze.py:538-543) — they are identical. -/
def movingAveragesDefault : MovingAveragesResult :=
  { ma_long_d := ⟨none, "below", "bearish"⟩
    ma_medium_d := ⟨none, "below", "bearish"⟩
    ma_short_d := ⟨none, "below", "bearish"⟩
    ma_crossovers := [] }

/-- `calculate_moving_averages` (analyze.py:489-543). -/
def calculate_moving_averages (cfg : AnalysisConfig) (df : List Candle) :
    MovingAveragesResult :=
  if df.length < cfg.ma_long then movingAveragesDefault
  else
    let closes := df.map Candle.trade_price
    let maS := rollingMean cfg.ma_short closes
    let maM := rollingMean cfg.ma_medium closes
    let maL := rollingMean cfg.ma_long closes
    let current := lastQ 0 closes
    { ma_long_d := maEntry current (lastO maL)
      ma_medium_d := maEntry current (lastO maM)
      ma_short_d := maEntry current (lastO maS)
      ma_crossovers := analyze_ma_crossovers cfg maS maM }

/-! ## Momentum indicators (analyze.py:586-710) -/

/-- `delta.where(delta > 0, 0)` after `delta = df['trade_price'].diff()`:
position 0 holds NaN in `delta`, and `NaN > 0` is False, so `where`
replaces it with 0 — the first entry of the gain series is 0, not NaN. -/
def gains (closes : List ℚ) : List ℚ :=
  (List.range closes.length).map fun i =>
    if i = 0 then 0 else max (closes.getD i 0 - closes.getD (i - 1) 0) 0

/-- `-delta.where(delta < 0, 0)`: losses as positive magnitudes, 0 at
position 0 as above. -/
def losses (closes : List ℚ) : List ℚ :=
  (List.range closes.length).map fun i =>
    if i = 0 then 0 else max (closes.getD (i - 1) 0 - closes.getD i 0) 0

/-- One entry of `rsi = 100 - 100/(1 + avg_gain/avg_loss)` under IEEE
float semantics: with `avg_loss ≠ 0` the formula is exact; with
`avg_loss = 0` and `avg_gain ≠ 0` the quotient is `±inf`, so the RSI
evaluates to exactly `100.0` (a value `pd.isna` does NOT filter);
`0/0` is NaN, which propagates.  NaN in an input average propagates. -/
def rsiFromAvgs : Option ℚ → Option ℚ → Option ℚ
  | some g, some l =>
    if l ≠ 0 then some (100 - 100 / (1 + g / l))
    else if g ≠ 0 then some 100
    else none
  | _, _ => none

/-- The branch cascade of `get_macd_trend` (analyze.py:668-675) on the
two defined histogram entries: magnitudes are compared first, so the
sign-flip "crossover" branch is reached only when the magnitudes are
exactly equal. -/
def macdTrendOf (current previous : ℚ) : String :=
  if |current| < |previous| then "converging"
  else if |previous| < |current| then "diverging"
  else if (0 < current ∧ previous ≤ 0) ∨ (current < 0 ∧ 0 ≤ previous) then "crossover"
  else "neutral"

/-- `get_macd_trend` (analyze.py:656-675).  The match on the reversed
series is the `len < 2` check plus the two `pd.isna` checks (either
condition yields `"neutral"`). -/
def get_macd_trend (histogram : List (Option ℚ)) : String :=
  match histogram.reverse with
  | some current :: some previous :: _ => macdTrendOf current previous
  | _ => "neutral"

/-- `get_stoch_trend` (analyze.py:677-698). -/
def get_stoch_trend (stochK stochD : List (Option ℚ)) : String :=
  match stochK.reverse, stochD.reverse with
  | some cK :: some pK :: _, some cD :: some pD2 :: _ =>
    if pK < cK ∧ pD2 < cD then "bullish"
    else if cK < pK ∧ cD < pD2 then "bearish"
    else if cD < cK ∧ pK ≤ pD2 then "bullish_crossover"
    else if cK < cD ∧ pD2 ≤ pK then "bearish_crossover"
    else "neutral"
  | _, _ => "neutral"

/-- `get_stoch_zone` (analyze.py:700-710). -/
def get_stoch_zone (k d : Option ℚ) (cfg : AnalysisConfig) : String :=
  match k, d with
  | some kv, some dv =>
    if cfg.stoch_overbought ≤ kv ∧ cfg.stoch_overbought ≤ dv then "overbought"
    else if kv ≤ cfg.stoch_oversold ∧ dv ≤ cfg.stoch_oversold then "oversold"
    else "neutral"
  | _, _ => "neutral"

/-- The flattened `momentum` sub-record.  `macd_line/signal/histogram`
are `Option ℚ` so that the same record type can also hold the
`empty_technical_signals` bundle, where they are `None`;
`calculate_momentum` itself always fills them with `some _`. -/
structure MomentumResult where
  rsi_value : Option ℚ
  rsi_zone : String
  rsi_trend : String
  macd_line : Option ℚ
  macd_sig : Option ℚ
  macd_histogram : Option ℚ
  macd_trend : String
  stoch_k : Option ℚ
  stoch_d : Option ℚ
  stoch_trend : String
  stoch_zone : String
deriving DecidableEq

/-- The dict returned both on insufficient data (analyze.py:591-595) and
from the `except` handler (analyze.py:650-654) — they are identical;
note the MACD members: plain `0.0` values and trend `"converging"`. -/
def momentumDefault : MomentumResult :=
  { rsi_value := none, rsi_zone := "neutral", rsi_trend := "neutral"
    macd_line := some 0, macd_sig := some 0, macd_histogram := some 0
    macd_trend := "converging"
    stoch_k := none, stoch_d := none
    stoch_trend := "neutral", stoch_zone := "neutral" }

/-- `calculate_momentum` (analyze.py:586-654).  The `%K` denominator
`highest_high - lowest_low` can only be zero when every high and low in
the window coincide, in which case (for candles with
`low ≤ close ≤ high`) the numerator is zero too and the entry is NaN
(`0/0`); it is modelled as `none` whenever the denominator is zero. -/
def calculate_momentum (cfg : AnalysisConfig) (df : List Candle) : MomentumResult :=
  if df.length < cfg.rsi_period then momentumDefault
  else
    let closes := df.map Candle.trade_price
    let avgGain := rollingMean cfg.rsi_period (gains closes)
    let avgLoss := rollingMean cfg.rsi_period (losses closes)
    let currentRsi := rsiFromAvgs (lastO avgGain) (lastO avgLoss)
    let previousRsi :=
      if 1 < df.length then
        rsiFromAvgs (avgGain.getD (df.length - 2) none) (avgLoss.getD (df.length - 2) none)
      else currentRsi
    let emaFast := ewmMean cfg.macd_fast cfg.macd_fast closes
    let emaSlow := ewmMean cfg.macd_slow cfg.macd_slow closes
    let macdLine := List.zipWith omSub emaFast emaSlow
    let signalLine := ewmOpt cfg.macd_signal cfg.macd_signal macdLine
    let histogram := List.zipWith omSub macdLine signalLine
    let lowestLow := rollingMin cfg.stoch_k_period (df.map Candle.low_price)
    let highestHigh := rollingMax cfg.stoch_k_period (df.map Candle.high_price)
    let stochK := (List.range df.length).map fun i =>
      match highestHigh.getD i none, lowestLow.getD i none with
      | some hh, some ll =>
        if hh - ll ≠ 0 then some ((closes.getD i 0 - ll) / (hh - ll) * 100) else none
      | _, _ => none
    let stochD := rollingMeanOpt cfg.stoch_d_period stochK
    { rsi_value := Option.map (pyRoundTo 1) currentRsi
      rsi_zone := match currentRsi with
        | some r =>
          if cfg.rsi_overbought ≤ r then "overbought"
          else if r ≤ cfg.rsi_oversold then "oversold"
          else "neutral"
        | none => "neutral"
      rsi_trend := match currentRsi, previousRsi with
        | some c, some p =>
          if p < c then "rising" else if c < p then "falling" else "neutral"
        | _, _ => "neutral"
      macd_line := some (match lastO macdLine with
        | some v => pyRoundTo 2 (v / 1000000)
        | none => 0)
      macd_sig := some (match lastO signalLine with
        | some v => pyRoundTo 2 (v / 1000000)
        | none => 0)
      macd_histogram := some (match lastO histogram with
        | some v => pyRoundTo 2 (v / 1000000)
        | none => 0)
      macd_trend := get_macd_trend histogram
      stoch_k := Option.map (pyRoundTo 1) (lastO stochK)
      stoch_d := Option.map (pyRoundTo 1) (lastO stochD)
      stoch_trend := get_stoch_trend stochK stochD
      stoch_zone := get_stoch_zone (lastO stochK) (lastO stochD) cfg }

/-! ## Volatility indicators (analyze.py:712-767) -/

structure VolatilityResult where
  bb_width_percentile : ℤ
  bb_position : ℤ
  bb_signal : String
  atr_14d : Option ℤ
  atr_percentile : ℤ
deriving DecidableEq

/-- The dict returned on insufficient data (analyze.py:717-721) and from
the `except` handler (analyze.py:763-767) — identical. -/
def volatilityDefault : VolatilityResult :=
  { bb_width_percentile := 50, bb_position := 50, bb_signal := "neutral"
    atr_14d := none, atr_percentile := 50 }

/-- Elementwise combination of two Series (NaN-propagating). -/
def omWith (f : ℚ → ℚ → ℚ) : Option ℚ → Option ℚ → Option ℚ
  | some x, some y => some (f x y)
  | _, _ => none

/-- `calculate_volatility` (analyze.py:712-767).  `sq` abstracts the
square root inside the rolling sample standard deviation (irrational on
rationals); every fact proved about this function holds for an arbitrary
`sq`.  The band-width entry is modelled as NaN when the rolling mean is
zero (IEEE would give `±inf` there, which needs prices summing to zero
over the window). -/
def calculate_volatility (sq : ℚ → ℚ) (cfg : AnalysisConfig) (df : List Candle) :
    VolatilityResult :=
  if df.length < cfg.bb_period then volatilityDefault
  else
    let closes := df.map Candle.trade_price
    let sma := rollingMean cfg.bb_period closes
    let std := (rollingVar cfg.bb_period closes).map (Option.map sq)
    let upper := List.zipWith (omWith fun m s => m + s * cfg.bb_std) sma std
    let lower := List.zipWith (omWith fun m s => m - s * cfg.bb_std) sma std
    let bandWidth := (List.range df.length).map fun i =>
      match upper.getD i none, lower.getD i none, sma.getD i none with
      | some u, some l, some m => if m ≠ 0 then some ((u - l) / m * 100) else none
      | _, _, _ => none
    let current := lastQ 0 closes
    let position : ℚ :=
      match lastO upper, lastO lower with
      | some u, some l =>
        if u ≠ l then min 100 (max 0 ((current - l) / (u - l) * 100)) else 50
      | _, _ => 50
    let highs := df.map Candle.high_price
    let lows := df.map Candle.low_price
    let trueRange := (List.range df.length).map fun i =>
      if i = 0 then highs.getD 0 0 - lows.getD 0 0
      else
        let pc := closes.getD (i - 1) 0
        max (highs.getD i 0 - lows.getD i 0)
          (max |highs.getD i 0 - pc| |lows.getD i 0 - pc|)
    let atr := rollingMean cfg.atr_period trueRange
    { bb_width_percentile := calculate_percentile bandWidth (lastO bandWidth)
      bb_position := pyRound position
      bb_signal :=
        if 80 < position then "overbought"
        else if position < 20 then "oversold"
        else "neutral"
      atr_14d := Option.map pyTrunc (lastO atr)
      atr_percentile := calculate_percentile atr (lastO atr) }

/-! ## Volume indicators (analyze.py:769-858) -/

/-- `calculate_obv_trend` (analyze.py:811-826): sign of the
least-squares degree-1 slope over the most recent 5 OBV points
(`np.polyfit(x, y, 1)[0] = (nΣxy − ΣxΣy)/(nΣx² − (Σx)²)`, exact on
rationals; for `n ≥ 2` equally spaced `x` the denominator is positive). -/
def calculate_obv_trend (obv : List ℚ) : String :=
  let recent := obv.drop (obv.length - 5)
  if recent.length < 2 then "neutral"
  else
    let n : ℚ := recent.length
    let xs := (List.range recent.length).map fun k => (k : ℚ)
    let sx := xs.sum
    let sy := recent.sum
    let sxy := (List.zipWith (fun a b => a * b) xs recent).sum
    let sxx := (xs.map fun a => a ^ 2).sum
    let slope := (n * sxy - sx * sy) / (n * sxx - sx ^ 2)
    if 0 < slope then "rising" else if slope < 0 then "falling" else "neutral"

/-- `calculate_volume_price_trend` (analyze.py:828-851): the two
`"flat"` directions can only combine to `"neutral"`, so the string
intermediate is collapsed into the final three-way answer. -/
def calculate_volume_price_trend (cfg : AnalysisConfig) (df : List Candle) : String :=
  let period := min cfg.volume_trend_period df.length
  if period < 2 then "neutral"
  else
    let recent := df.drop (df.length - period)
    let priceChange :=
      lastQ 0 (recent.map Candle.trade_price) - (recent.map Candle.trade_price).headD 0
    let volumeChange :=
      lastQ 0 (recent.map Candle.candle_acc_trade_volume) -
        (recent.map Candle.candle_acc_trade_volume).headD 0
    if (0 < priceChange ∧ 0 < volumeChange) ∨ (priceChange < 0 ∧ volumeChange < 0) then
      "confirming"
    else if (0 < priceChange ∧ volumeChange < 0) ∨ (priceChange < 0 ∧ 0 < volumeChange) then
      "diverging"
    else "neutral"

/-- The `volume` sub-record.  The source dict key `volume_ema_ratio` is
spelled `volume_ema_quot` here. -/
structure VolumeResult where
  obv_trend : String
  volume_ema_quot : ℚ
  volume_price_trend : String
deriving DecidableEq

/-- The dict returned on insufficient data (analyze.py:773-777) and from
the `except` handler (analyze.py:805-809) — identical. -/
def volumeDefault : VolumeResult :=
  { obv_trend := "neutral", volume_ema_quot := 1, volume_price_trend := "neutral" }

/-- `calculate_volume` (analyze.py:769-809). -/
def calculate_volume (cfg : AnalysisConfig) (df : List Candle) : VolumeResult :=
  if df.length < cfg.volume_ema_period then volumeDefault
  else
    let closes := df.map Candle.trade_price
    let vols := df.map Candle.candle_acc_trade_volume
    let obvChange := (List.range df.length).map fun i =>
      if i = 0 then 0
      else if closes.getD (i - 1) 0 < closes.getD i 0 then vols.getD i 0
      else if closes.getD i 0 < closes.getD (i - 1) 0 then -(vols.getD i 0)
      else 0
    let obv := cumsum obvChange
    let volumeEma := ewmMean cfg.volume_ema_period cfg.volume_ema_period vols
    let currentVolume := lastQ 0 vols
    let quot : ℚ :=
      match lastO volumeEma with
      | some e => if 0 < e then pyRoundTo 2 (currentVolume / e) else 1
      | none => 1
    { obv_trend := calculate_obv_trend obv
      volume_ema_quot := quot
      volume_price_trend := calculate_volume_price_trend cfg df }

/-! ## The technical-signals bundle (analyze.py:459-487, 860-884) -/

structure TechnicalSignals where
  moving_averages : MovingAveragesResult
  momentum : MomentumResult
  volatility : VolatilityResult
  volume : VolumeResult
deriving DecidableEq

/-- `empty_technical_signals` (analyze.py:860-884). -/
def empty_technical_signals : TechnicalSignals :=
  { moving_averages :=
      { ma_long_d := ⟨none, "unknown", "neutral"⟩
        ma_medium_d := ⟨none, "unknown", "neutral"⟩
        ma_short_d := ⟨none, "unknown", "neutral"⟩
        ma_crossovers := [] }
    momentum :=
      { rsi_value := none, rsi_zone := "neutral", rsi_trend := "neutral"
        macd_line := none, macd_sig := none, macd_histogram := none
        macd_trend := "neutral"
        stoch_k := none, stoch_d := none
        stoch_trend := "neutral", stoch_zone := "neutral" }
    volatility :=
      { bb_width_percentile := 50, bb_position := 50, bb_signal := "neutral"
        atr_14d := none, atr_percentile := 50 }
    volume :=
      { obv_trend := "neutral", volume_ema_quot := 1, volume_price_trend := "neutral" } }

/-- `calculate_technical_signals` (analyze.py:459-487): the guard
`df.empty or len(df) < config.ma_long` short-circuits to the empty
bundle; otherwise the four indicator families are computed on the full
daily table. -/
def calculate_technical_signals (sq : ℚ → ℚ) (cfg : AnalysisConfig)
    (df : List Candle) : TechnicalSignals :=
  if df.length = 0 ∨ df.length < cfg.ma_long then empty_technical_signals
  else
    { moving_averages := calculate_moving_averages cfg df
      momentum := calculate_momentum cfg df
      volatility := calculate_volatility sq cfg df
      volume := calculate_volume cfg df }

/-! ## Auxiliary order for the uniqueness argument of the table sort -/

/-- `tsLe` restricted to candles with distinct timestamps; antisymmetric,
which `tsLe` alone is not (two candles can share a timestamp). -/
def tsDistinctLe (a b : Candle) : Prop := tsLe a b ∧ a.ts ≠ b.ts

instance : IsAntisymm Candle tsDistinctLe :=
  ⟨fun a b h1 h2 => by
    exfalso
    apply h1.2
    have k1 : tsKeyLe a.ts b.ts := h1.1
    have k2 : tsKeyLe b.ts a.ts := h2.1
    rcases ha : a.ts with _ | x <;> rcases hb : b.ts with _ | y <;>
      rw [ha, hb] at k1 k2 <;> simp [tsKeyLe] at k1 k2 ⊢ <;> omega⟩

/-! ## Concrete inputs used by the witnesses and counterexamples -/

/-- A candle whose open/high/low/close all equal `p`. -/
def mkCandle (t : ℕ) (p : ℚ) : Candle := ⟨some t, p, p, p, p, 1, 0⟩

/-- 31 closes: constant at 10, then a jump to 16 — with 2/3-period
averages the only short/medium cross sits at the final adjacent pair. -/
def c1closes : List ℚ := List.replicate 30 10 ++ [16]

def c1cfg : AnalysisConfig := { defaultConfig with ma_short := 2, ma_medium := 3 }

/-- 15 strictly increasing closes 1..15: every delta is `+1`, so the
14-period average loss is 0 and the average gain is 1. -/
def c3df : List Candle := (List.range 15).map fun i => mkCandle i ((i : ℚ) + 1)

/-- 5 rows: fewer than the default `rsi_period = 14`. -/
def c4df : List Candle := (List.range 5).map fun i => mkCandle i ((i : ℚ) + 1)

/-- Two candles sharing timestamp 5 but differing in close. -/
def candleA : Candle := ⟨some 5, 0, 0, 0, 1, 0, 0⟩

def candleB : Candle := ⟨some 5, 0, 0, 0, 2, 0, 0⟩

/-- Two candles with distinct timestamps. -/
def candleC : Candle := ⟨some 1, 0, 0, 0, 1, 0, 0⟩

def candleD : Candle := ⟨some 2, 0, 0, 0, 2, 0, 0⟩

/-- The C6 scenario: 200 daily rows with closes 100..299 (step 1), each
row's `change_rate` the positive day-over-day rate implied by the
ascending closes. -/
def c6Table : List Candle :=
  (List.range 200).map fun i =>
    ⟨some i, 99 + (i : ℚ), 100 + (i : ℚ), 99 + (i : ℚ), 100 + (i : ℚ), 1,
      1 / (99 + (i : ℚ))⟩

/-- Current price 405/4 = 101.25; the nearest real resistance candidate
101.3125 (= 1621/16, exactly representable in binary) rounds down to
101 < 101.25. -/
def c7df : List Candle :=
  [⟨some 0, 100, 1621/16, 100, 100, 1, 0⟩, ⟨some 1, 100, 103, 99, 100, 1, 0⟩]

/-- 15 closes alternating 10, 11, 10, …: over the last 14 deltas, 7
gains of 1 and 7 losses of 1, so average gain = average loss = 1/2. -/
def c8df : List Candle :=
  (List.range 15).map fun i => mkCandle i (10 + if i % 2 = 1 then 1 else 0)

/-- 20 rows: enough for RSI/Bollinger/volume windows, fewer than the
default `ma_long = 200`. -/
def c10df : List Candle := (List.range 20).map fun i => mkCandle i ((i : ℚ) + 1)

/-! ## Helper lemmas -/

theorem lastO_mem {xs : List (Option ℚ)} {v : ℚ} (h : lastO xs = some v) :
    some v ∈ xs := by
  induction xs with
  | nil => simp [lastO] at h
  | cons a t ih =>
    cases t with
    | nil =>
      simp [lastO] at h
      simp [h]
    | cons b u =>
      simp only [lastO] at h
      exact List.mem_cons_of_mem a (ih h)

theorem lastO_append (l : List (Option ℚ)) (a : Option ℚ) : lastO (l ++ [a]) = a := by
  induction l with
  | nil => rfl
  | cons x t ih =>
    cases t with
    | nil => rfl
    | cons y u => exact ih

/-- The most recent rolling mean is the mean of the trailing `w`
entries. -/
theorem rollingMean_last (w : ℕ) (xs : List ℚ) (hw : 1 ≤ w) (hlen : w ≤ xs.length) :
    lastO (rollingMean w xs) = some ((xs.drop (xs.length - w)).sum / w) := by
  obtain ⟨n, hn⟩ : ∃ n, xs.length = n + 1 := ⟨xs.length - 1, by omega⟩
  unfold rollingMean
  rw [hn, List.range_succ, List.map_append, List.map_singleton, lastO_append]
  rw [if_pos ⟨by omega, hw⟩, ← hn, List.take_length]

theorem rollingMean_nonneg {w : ℕ} {xs : List ℚ} {v : ℚ}
    (hxs : ∀ x ∈ xs, 0 ≤ x) (hv : some v ∈ rollingMean w xs) : 0 ≤ v := by
  unfold rollingMean at hv
  obtain ⟨i, _, heq⟩ := List.mem_map.mp hv
  split_ifs at heq with hcond
  · have hval : (((xs.take (i + 1)).drop (i + 1 - w)).sum) / (w : ℚ) = v :=
      Option.some.inj heq
    rw [← hval]
    apply div_nonneg
    · apply List.sum_nonneg
      intro x hx
      exact hxs x (List.mem_of_mem_take (List.mem_of_mem_drop hx))
    · exact_mod_cast Nat.zero_le w

theorem gains_nonneg (closes : List ℚ) : ∀ x ∈ gains closes, 0 ≤ x := by
  intro x hx
  unfold gains at hx
  obtain ⟨i, _, hi⟩ := List.mem_map.mp hx
  rw [← hi]
  split_ifs
  · exact le_refl 0
  · exact le_max_right _ _

theorem losses_nonneg (closes : List ℚ) : ∀ x ∈ losses closes, 0 ≤ x := by
  intro x hx
  unfold losses at hx
  obtain ⟨i, _, hi⟩ := List.mem_map.mp hx
  rw [← hi]
  split_ifs
  · exact le_refl 0
  · exact le_max_right _ _

theorem pyRound_ge {n : ℤ} {x : ℚ} (h : (n : ℚ) ≤ x) : n ≤ pyRound x := by
  unfold pyRound
  have hf : n ≤ ⌊x⌋ := Int.le_floor.mpr h
  split_ifs <;> omega

theorem pyRound_le {n : ℤ} {x : ℚ} (h : x ≤ n) : pyRound x ≤ n := by
  unfold pyRound
  have hf : ⌊x⌋ ≤ n := by
    have h2 : ⌊x⌋ ≤ ⌊(n : ℚ)⌋ := Int.floor_le_floor h
    simpa using h2
  have hfl : (⌊x⌋ : ℚ) ≤ x := Int.floor_le x
  split_ifs with h1 h2 h3
  · exact hf
  · have hq : (⌊x⌋ : ℚ) + 1/2 < x := by linarith
    have hlt : (⌊x⌋ : ℚ) < (n : ℚ) := by linarith
    have : ⌊x⌋ < n := by exact_mod_cast hlt
    omega
  · exact hf
  · have hq : (⌊x⌋ : ℚ) + 1/2 ≤ x := by
      have := not_lt.mp h1
      linarith
    have hlt : (⌊x⌋ : ℚ) < (n : ℚ) := by linarith
    have : ⌊x⌋ < n := by exact_mod_cast hlt
    omega

theorem pyRoundTo1_bound {x : ℚ} (h0 : 0 ≤ x) (h1 : x ≤ 100) :
    0 ≤ pyRoundTo 1 x ∧ pyRoundTo 1 x ≤ 100 := by
  unfold pyRoundTo
  have hg : (0 : ℤ) ≤ pyRound (x * 10 ^ 1) := pyRound_ge (by push_cast; nlinarith)
  have hl : pyRound (x * 10 ^ 1) ≤ (1000 : ℤ) := pyRound_le (by push_cast; nlinarith)
  constructor
  · apply div_nonneg _ (by norm_num)
    exact_mod_cast hg
  · rw [div_le_iff₀ (by norm_num)]
    have : ((pyRound (x * 10 ^ 1) : ℚ)) ≤ 1000 := by exact_mod_cast hl
    linarith

theorem rsiFromAvgs_some (g l : ℚ) :
    rsiFromAvgs (some g) (some l) =
      if l ≠ 0 then some (100 - 100 / (1 + g / l))
      else if g ≠ 0 then some 100 else none := rfl

theorem pyRoundTo1_100 : pyRoundTo 1 (100 : ℚ) = 100 :=
  of_decide_eq_true (by with_unfolding_all rfl)

theorem pyRoundTo1_50 : pyRoundTo 1 (50 : ℚ) = 50 :=
  of_decide_eq_true (by with_unfolding_all rfl)

/-- The short-circuit of `calculate_momentum` on fewer than
`rsi_period` rows (analyze.py:589-595). -/
theorem calculate_momentum_insufficient {cfg : AnalysisConfig} {df : List Candle}
    (h : df.length < cfg.rsi_period) : calculate_momentum cfg df = momentumDefault := by
  unfold calculate_momentum
  rw [if_pos h]

/-- The reported RSI of `calculate_momentum` past the gate: the rounded
last entry of the RSI series. -/
theorem calculate_momentum_rsi_value {cfg : AnalysisConfig} {df : List Candle}
    (h : ¬ df.length < cfg.rsi_period) :
    (calculate_momentum cfg df).rsi_value =
      Option.map (pyRoundTo 1)
        (rsiFromAvgs
          (lastO (rollingMean cfg.rsi_period (gains (df.map Candle.trade_price))))
          (lastO (rollingMean cfg.rsi_period (losses (df.map Candle.trade_price))))) := by
  unfold calculate_momentum
  rw [if_neg h]

/-! ## Claim theorems -/

/-- C1: the crossover scan does NOT examine the most recent 30
observations.  On 31 closes (constant 10, final jump to 16) with 2/3
period averages, the last adjacent pair (indices 29,30) is a golden
cross — prev averages 10 = 10, current 13 > 12 — yet
`analyze_ma_crossovers` returns an empty list, because its loop reads
`df.iloc[1..lookback-1]`, absolute positions from the START of the
frame, so for tables longer than 30 rows it scans the oldest 30 rows
instead of the newest. -/
theorem c1_scan_misses_most_recent_pair :
    (rollingMean 2 c1closes).getD 29 none = some 10 ∧
    (rollingMean 3 c1closes).getD 29 none = some 10 ∧
    (rollingMean 2 c1closes).getD 30 none = some 13 ∧
    (rollingMean 3 c1closes).getD 30 none = some 12 ∧
    analyze_ma_crossovers c1cfg (rollingMean 2 c1closes) (rollingMean 3 c1closes) = [] :=
  of_decide_eq_true (by with_unfolding_all rfl)

/-- C2 counterexample: the histogram's sign differs between the last two
defined points (−2 then 1), but the classification is "converging", not
"crossover": the magnitude comparison is checked first. -/
theorem c2_counterexample :
    ((-2 : ℚ) < 0 ∧ (0 : ℚ) < 1) ∧
    get_macd_trend [some (-2), some 1] = "converging" ∧
    "converging" ≠ "crossover" :=
  of_decide_eq_true (by with_unfolding_all rfl)

/-- C2 amended: for a histogram whose last two entries are defined,
`get_macd_trend` returns "crossover" iff those two entries are exact
nonzero negatives of each other (equal magnitude, strictly opposite
sign); a sign flip with shrinking (growing) magnitude is classified
"converging" ("diverging") instead. -/
theorem c2_crossover_iff_exact_negation (rest : List (Option ℚ)) (p c : ℚ) :
    get_macd_trend (rest ++ [some p, some c]) = "crossover" ↔ p = -c ∧ c ≠ 0 := by
  have hrev : (rest ++ [some p, some c]).reverse = some c :: some p :: rest.reverse := by
    simp
  unfold get_macd_trend
  rw [hrev]
  show macdTrendOf c p = "crossover" ↔ p = -c ∧ c ≠ 0
  unfold macdTrendOf
  rcases lt_trichotomy |c| |p| with h | h | h
  · rw [if_pos h]
    constructor
    · intro hs
      exact absurd hs (by decide)
    · rintro ⟨hp, -⟩
      rw [hp, abs_neg] at h
      exact absurd h (lt_irrefl _)
  · rw [if_neg (not_lt.mpr h.le), if_neg (not_lt.mpr h.ge)]
    by_cases hcross : (0 < c ∧ p ≤ 0) ∨ (c < 0 ∧ 0 ≤ p)
    · rw [if_pos hcross]
      constructor
      · intro _
        rcases hcross with ⟨hc, hp⟩ | ⟨hc, hp⟩
        · rw [abs_of_pos hc, abs_of_nonpos hp] at h
          exact ⟨by linarith, ne_of_gt hc⟩
        · rw [abs_of_neg hc, abs_of_nonneg hp] at h
          exact ⟨by linarith, ne_of_lt hc⟩
      · intro _
        rfl
    · rw [if_neg hcross]
      constructor
      · intro hs
        exact absurd hs (by decide)
      · rintro ⟨hp, hc⟩
        exfalso
        apply hcross
        rcases hc.lt_or_lt with hneg | hpos
        · exact Or.inr ⟨hneg, by rw [hp]; linarith⟩
        · exact Or.inl ⟨hpos, by rw [hp]; linarith⟩
  · rw [if_neg (not_lt.mpr h.le), if_pos h]
    constructor
    · intro hs
      exact absurd hs (by decide)
    · rintro ⟨hp, -⟩
      rw [hp, abs_neg] at h
      exact absurd h (lt_irrefl _)

/-- C3 counterexample: 15 strictly increasing closes — the most recent
14 deltas contain no negative delta, the 14-period average loss is 0 —
yet the reported RSI is 100.0, not null: under float division
`avg_gain/0 = +inf`, and `100 - 100/(1+inf)` is exactly `100.0`,
which `pd.isna` does not filter. -/
theorem c3_counterexample :
    lastO (rollingMean defaultConfig.rsi_period (losses (c3df.map Candle.trade_price))) =
      some 0 ∧
    (calculate_momentum defaultConfig c3df).rsi_value = some 100 :=
  of_decide_eq_true (by with_unfolding_all rfl)

/-- C3 amended: on a table with at least `rsi_period` rows whose window
average loss is zero, the reported RSI is 100 whenever the window
average gain is nonzero, and null only when the average gain is zero
too (the all-deltas-zero case, where `0/0` is NaN). -/
theorem c3_zero_loss_rsi (cfg : AnalysisConfig) (df : List Candle) (g : ℚ)
    (hlen : cfg.rsi_period ≤ df.length)
    (hgain : lastO (rollingMean cfg.rsi_period (gains (df.map Candle.trade_price))) = some g)
    (hloss : lastO (rollingMean cfg.rsi_period (losses (df.map Candle.trade_price))) = some 0) :
    (calculate_momentum cfg df).rsi_value = if g = 0 then none else some 100 := by
  rw [calculate_momentum_rsi_value (not_lt.mpr hlen), hgain, hloss, rsiFromAvgs_some]
  rw [if_neg (by simp)]
  by_cases hg : g = 0
  · rw [if_neg (not_ne_iff.mpr hg), if_pos hg]
    rfl
  · rw [if_pos hg, if_neg hg]
    simp [pyRoundTo1_100]

theorem c3_witness :
    (calculate_momentum defaultConfig c3df).rsi_value = some 100 := by
  rw [c3_zero_loss_rsi defaultConfig c3df 1 (by decide)
    (of_decide_eq_true (by with_unfolding_all rfl))
    (of_decide_eq_true (by with_unfolding_all rfl))]
  norm_num

/-- C4 counterexample: on 5 rows (fewer than `rsi_period = 14`) the
returned MACD members are not null/neutral — the line is the value
`0.0` and the trend is `"converging"`. -/
theorem c4_counterexample :
    c4df.length < defaultConfig.rsi_period ∧
    (calculate_momentum defaultConfig c4df).macd_line = some 0 ∧
    (calculate_momentum defaultConfig c4df).macd_trend = "converging" ∧
    "converging" ≠ "neutral" :=
  of_decide_eq_true (by with_unfolding_all rfl)

/-- C4 amended: with fewer than `rsi_period` rows, `calculate_momentum`
returns (without raising) the source's hand-written default record:
RSI null with neutral zone/trend and Stochastic null with neutral
trend/zone as claimed, but MACD line/signal/histogram `0.0` (not null)
with trend `"converging"` (not `"neutral"`). -/
theorem c4_insufficient_rows_default (cfg : AnalysisConfig) (df : List Candle)
    (h : df.length < cfg.rsi_period) :
    calculate_momentum cfg df = momentumDefault :=
  calculate_momentum_insufficient h

theorem c4_witness :
    c4df.length < defaultConfig.rsi_period ∧
    calculate_momentum defaultConfig c4df = momentumDefault :=
  ⟨by decide, c4_insufficient_rows_default defaultConfig c4df (by decide)⟩

/-- C5 counterexample: two candles share timestamp 5 but differ in
close; the two orderings of the same two-element list construct
different tables (`sort_values` keeps the input order of the tied pair),
so the constructed table is not invariant under permutation of the
input. -/
theorem c5_counterexample :
    [candleA, candleB].Perm [candleB, candleA] ∧
    safe_dataclass_to_dataframe [candleA, candleB] ≠
      safe_dataclass_to_dataframe [candleB, candleA] :=
  of_decide_eq_true (by with_unfolding_all rfl)

/-- C5 amended: for EVERY input list — duplicate timestamps included —
construction yields a table sorted non-decreasing by the timestamp key
(null timestamps ordered after all real ones); and the constructed
table is identical across permutations of the input whenever the
timestamps are pairwise distinct.  With a duplicated timestamp the tie
order is not specified by the sort, and permutation-invariance can
fail: the counterexample's two orderings of the same two candles
construct different tables. -/
theorem c5_sorted_and_perm_invariant (l1 : List Candle) :
    List.Sorted tsLe (safe_dataclass_to_dataframe l1) ∧
    (∀ l2 : List Candle, l1.Perm l2 → (l1.map Candle.ts).Nodup →
      safe_dataclass_to_dataframe l1 = safe_dataclass_to_dataframe l2) := by
  refine ⟨List.sorted_insertionSort tsLe l1, ?_⟩
  intro l2 hperm hnodup
  have hp1 : (List.insertionSort tsLe l1).Perm l1 := List.perm_insertionSort tsLe l1
  have hp2 : (List.insertionSort tsLe l2).Perm l2 := List.perm_insertionSort tsLe l2
  have hp : (List.insertionSort tsLe l1).Perm (List.insertionSort tsLe l2) :=
    (hp1.trans hperm).trans hp2.symm
  have hnd1 : ((List.insertionSort tsLe l1).map Candle.ts).Nodup :=
    ((hp1.map Candle.ts).nodup_iff).mpr hnodup
  have hnd2 : ((List.insertionSort tsLe l2).map Candle.ts).Nodup := by
    apply ((hp2.map Candle.ts).nodup_iff).mpr
    exact ((hperm.map Candle.ts).nodup_iff).mp hnodup
  have hstrict : ∀ l : List Candle, List.Sorted tsLe l → (l.map Candle.ts).Nodup →
      List.Pairwise tsDistinctLe l := by
    intro l hs hn
    have hpn : l.Pairwise fun a b => a.ts ≠ b.ts := List.pairwise_map.mp hn
    exact hs.and hpn
  exact List.eq_of_perm_of_sorted hp
    (hstrict _ (List.sorted_insertionSort tsLe l1) hnd1)
    (hstrict _ (List.sorted_insertionSort tsLe l2) hnd2)

theorem c5_witness :
    List.Sorted tsLe (safe_dataclass_to_dataframe [candleD, candleC]) ∧
    safe_dataclass_to_dataframe [candleD, candleC] =
      safe_dataclass_to_dataframe [candleC, candleD] :=
  ⟨(c5_sorted_and_perm_invariant [candleD, candleC]).1,
    (c5_sorted_and_perm_invariant [candleD, candleC]).2 [candleC, candleD]
      (by decide) (by decide)⟩

/-- C6 counterexample: in the claim's own scenario (200 ascending daily
closes 100..299, each row carrying the implied positive daily change
rate), the up-day counter over the last-7-days window is 7, not 6:
the source counts rows with positive `change_rate`, and all 7 rows of a
monotonically increasing table have one — it does not count the 6
adjacent increases inside the window. -/
theorem c6_counterexample :
    upDaysMedium (c6Table.drop 193) = 7 ∧ upDaysMedium (c6Table.drop 193) ≠ 6 :=
  of_decide_eq_true (by with_unfolding_all rfl)

/-- C6 amended: on the 200-row table of closes 100..299, the 20-period
rolling mean at the final index is the mean of closes 280..299 =
289.5 (= 579/2), and the medium-term analyzer on the last 7 daily rows
classifies "bullish" — but with an up-day count of 7 (every row in the
window has a positive daily change rate), not 6.  The strength is
`min 100 (|600/293|·5 + 7·5) = 13255/293`. -/
theorem c6_scenario :
    lastO (rollingMean defaultConfig.ma_short (c6Table.map Candle.trade_price)) =
      some (579/2) ∧
    analyze_medium_term_trend (c6Table.drop 193) = some ("bullish", 13255/293) ∧
    upDaysMedium (c6Table.drop 193) = 7 := by
  refine ⟨?_, of_decide_eq_true (by with_unfolding_all rfl),
    of_decide_eq_true (by with_unfolding_all rfl)⟩
  have hlen : (c6Table.map Candle.trade_price).length = 200 := by
    simp [c6Table]
  rw [show defaultConfig.ma_short = 20 from rfl,
    rollingMean_last 20 _ (by norm_num) (by rw [hlen]; norm_num), hlen]
  exact of_decide_eq_true (by with_unfolding_all rfl)

/-- C7 amended: whenever at least 2 real candidates exist on each side,
the reported levels are exactly the two nearest real candidates of each
side rounded to integers — no synthetic ±2%/±4% levels are used — and
every selected candidate is strictly above (resistance) or strictly
below (support) the current price BEFORE rounding; the counterexample
shows the strict inequality can be lost by the final rounding. -/
theorem c7_real_candidates (df : List Candle) (current : ℚ)
    (hr : 2 ≤ ((df.map Candle.high_price).filter fun h => decide (current < h)).length)
    (hs : 2 ≤ ((df.map Candle.low_price).filter fun l => decide (l < current)).length) :
    calculate_support_resistance df current =
      { resistance := ((List.insertionSort (fun a b => a ≤ b)
          ((df.map Candle.high_price).filter fun h => decide (current < h))).take 2).map pyRound
        support := ((List.insertionSort (fun a b => b ≤ a)
          ((df.map Candle.low_price).filter fun l => decide (l < current))).take 2).map pyRound } ∧
    (∀ x ∈ (List.insertionSort (fun a b => a ≤ b)
        ((df.map Candle.high_price).filter fun h => decide (current < h))).take 2,
      current < x) ∧
    (∀ x ∈ (List.insertionSort (fun a b => b ≤ a)
        ((df.map Candle.low_price).filter fun l => decide (l < current))).take 2,
      x < current) := by
  have hne : df.isEmpty = false := by
    have h1 : 2 ≤ (df.map Candle.high_price).length :=
      le_trans hr (List.length_filter_le _ _)
    rw [List.length_map] at h1
    cases df with
    | nil => simp at h1
    | cons a t => rfl
  have hrl : 2 ≤ (List.insertionSort (fun a b : ℚ => a ≤ b)
      ((df.map Candle.high_price).filter fun h => decide (current < h))).length := by
    rwa [(List.perm_insertionSort _ _).length_eq]
  have hsl : 2 ≤ (List.insertionSort (fun a b : ℚ => b ≤ a)
      ((df.map Candle.low_price).filter fun l => decide (l < current))).length := by
    rwa [(List.perm_insertionSort _ _).length_eq]
  refine ⟨?_, ?_, ?_⟩
  · unfold calculate_support_resistance
    rw [hne]
    simp only [Bool.false_eq_true, if_false, if_neg (not_lt.mpr hrl), if_neg (not_lt.mpr hsl)]
  · intro x hx
    have hmem : x ∈ (df.map Candle.high_price).filter fun h => decide (current < h) :=
      (List.perm_insertionSort _ _).mem_iff.mp (List.mem_of_mem_take hx)
    exact of_decide_eq_true (List.mem_filter.mp hmem).2
  · intro x hx
    have hmem : x ∈ (df.map Candle.low_price).filter fun l => decide (l < current) :=
      (List.perm_insertionSort _ _).mem_iff.mp (List.mem_of_mem_take hx)
    exact of_decide_eq_true (List.mem_filter.mp hmem).2

theorem c7_witness :
    calculate_support_resistance c7df (405/4) =
      { resistance := ((List.insertionSort (fun a b => a ≤ b)
          ((c7df.map Candle.high_price).filter fun h => decide ((405 : ℚ)/4 < h))).take 2).map pyRound
        support := ((List.insertionSort (fun a b => b ≤ a)
          ((c7df.map Candle.low_price).filter fun l => decide (l < (405 : ℚ)/4))).take 2).map pyRound } ∧
    (∀ x ∈ (List.insertionSort (fun a b => a ≤ b)
        ((c7df.map Candle.high_price).filter fun h => decide ((405 : ℚ)/4 < h))).take 2,
      (405 : ℚ)/4 < x) ∧
    (∀ x ∈ (List.insertionSort (fun a b => b ≤ a)
        ((c7df.map Candle.low_price).filter fun l => decide (l < (405 : ℚ)/4))).take 2,
      x < (405 : ℚ)/4) :=
  c7_real_candidates c7df (405/4)
    (of_decide_eq_true (by with_unfolding_all rfl))
    (of_decide_eq_true (by with_unfolding_all rfl))

/-- C8: whenever `calculate_momentum` reports a non-null RSI, the
reported (rounded) value lies in [0, 100]; and when the window average
gain equals the window average loss with both nonzero, the reported RSI
is exactly 50. -/
theorem c8_rsi_bounds (cfg : AnalysisConfig) (df : List Candle) :
    (∀ v, (calculate_momentum cfg df).rsi_value = some v → 0 ≤ v ∧ v ≤ 100) ∧
    (∀ a, a ≠ 0 → cfg.rsi_period ≤ df.length →
      lastO (rollingMean cfg.rsi_period (gains (df.map Candle.trade_price))) = some a →
      lastO (rollingMean cfg.rsi_period (losses (df.map Candle.trade_price))) = some a →
      (calculate_momentum cfg df).rsi_value = some 50) := by
  constructor
  · intro v hv
    by_cases hlen : df.length < cfg.rsi_period
    · rw [calculate_momentum_insufficient hlen] at hv
      exact absurd hv (by simp [momentumDefault])
    · rw [calculate_momentum_rsi_value hlen] at hv
      rcases hG : lastO (rollingMean cfg.rsi_period (gains (df.map Candle.trade_price))) with
        _ | g
      · rw [hG] at hv
        exact absurd hv (by simp [rsiFromAvgs])
      rcases hL : lastO (rollingMean cfg.rsi_period (losses (df.map Candle.trade_price))) with
        _ | l
      · rw [hG, hL] at hv
        exact absurd hv (by simp [rsiFromAvgs])
      rw [hG, hL, rsiFromAvgs_some] at hv
      have hg : 0 ≤ g := rollingMean_nonneg (gains_nonneg _) (lastO_mem hG)
      have hl : 0 ≤ l := rollingMean_nonneg (losses_nonneg _) (lastO_mem hL)
      by_cases hl0 : l = 0
      · rw [if_neg (not_ne_iff.mpr hl0)] at hv
        by_cases hg0 : g = 0
        · rw [if_neg (not_ne_iff.mpr hg0)] at hv
          exact absurd hv (by simp)
        · rw [if_pos hg0] at hv
          simp only [Option.map_some'] at hv
          rw [pyRoundTo1_100] at hv
          obtain rfl : (100 : ℚ) = v := Option.some.inj hv
          norm_num
      · rw [if_pos hl0] at hv
        simp only [Option.map_some'] at hv
        have hlpos : 0 < l := lt_of_le_of_ne hl (Ne.symm hl0)
        have hrs : 0 ≤ g / l := div_nonneg hg hl
        have h1p : (0 : ℚ) < 1 + g / l := by linarith
        have hub : 100 / (1 + g / l) ≤ 100 := by
          rw [div_le_iff₀ h1p]
          nlinarith
        have hlb : 0 < 100 / (1 + g / l) := by positivity
        have hbound := pyRoundTo1_bound (x := 100 - 100 / (1 + g / l))
          (by linarith) (by linarith)
        obtain rfl : pyRoundTo 1 (100 - 100 / (1 + g / l)) = v := Option.some.inj hv
        exact hbound
  · intro a ha hlen hG hL
    rw [calculate_momentum_rsi_value (not_lt.mpr hlen), hG, hL, rsiFromAvgs_some]
    rw [if_pos ha]
    have haa : a / a = 1 := div_self ha
    rw [haa]
    norm_num [pyRoundTo1_50]

theorem c8_witness :
    ((0 : ℚ) ≤ 50 ∧ (50 : ℚ) ≤ 100) ∧
    (calculate_momentum defaultConfig c8df).rsi_value = some 50 := by
  have h50 := (c8_rsi_bounds defaultConfig c8df).2 (1/2) (by norm_num)
    (of_decide_eq_true (by with_unfolding_all rfl))
    (of_decide_eq_true (by with_unfolding_all rfl))
    (of_decide_eq_true (by with_unfolding_all rfl))
  exact ⟨(c8_rsi_bounds defaultConfig c8df).1 50 h50, h50⟩

/-- C10: with fewer daily rows than `ma_long`, the whole
technical-signals bundle short-circuits to `empty_technical_signals` —
no indicator is computed, even when an individual indicator's own
window requirement (e.g. `rsi_period` or `bb_period`) is satisfied by
the available rows.  Holds for every abstracted standard deviation
`sq`. -/
theorem c10_insufficient_rows_empty_bundle (sq : ℚ → ℚ) (cfg : AnalysisConfig)
    (df : List Candle) (h : df.length < cfg.ma_long) :
    calculate_technical_signals sq cfg df = empty_technical_signals := by
  unfold calculate_technical_signals
  rw [if_pos (Or.inr h)]

theorem c10_witness :
    defaultConfig.rsi_period ≤ c10df.length ∧
    defaultConfig.bb_period ≤ c10df.length ∧
    defaultConfig.volume_ema_period ≤ c10df.length ∧
    calculate_technical_signals (fun q => q) defaultConfig c10df =
      empty_technical_signals :=
  ⟨by decide, by decide, by decide,
    c10_insufficient_rows_empty_bundle (fun q => q) defaultConfig c10df (by decide)⟩

/-- C7 counterexample: both sides have 2 real candidates (highs
101.3125 and 103 above the current price 101.25; lows 100 and 99
below), yet the first REPORTED resistance level is `round(101.3125) =
101`, which is NOT strictly greater than the current price: the levels
are rounded to integers after selection. -/
theorem c7_counterexample :
    2 ≤ ((c7df.map Candle.high_price).filter fun h => decide ((405 : ℚ)/4 < h)).length ∧
    2 ≤ ((c7df.map Candle.low_price).filter fun l => decide (l < (405 : ℚ)/4)).length ∧
    (calculate_support_resistance c7df (405/4)).resistance = [101, 103] ∧
    ¬ ((405 : ℚ)/4 < 101) :=
  of_decide_eq_true (by with_unfolding_all rfl)

